import Mathlib

/-!
# Verification of the CloudKit native bridge (Wispr_Flow_Clone)

Shallow embedding of the three source files of the repository:

* `src/native/cloudkit/src/cloudkit_bridge.h` — the exported C surface;
* `src/native/cloudkit/src/cloudkit_stub.cpp` — the stub provider: every
  `cloudkit_*` operation ignores its `manager` and payload arguments and,
  when the callback pointer is non-null, invokes it synchronously exactly
  once with fixed arguments;
* `src/native/cloudkit/src/node_addon.cpp` — the N-API addon
  `CloudKitAddon`: each method validates its JavaScript argument, calls the
  corresponding `cloudkit_*` function with a no-op completion lambda, and
  then immediately resolves its promise with a fixed value.

Modelling conventions: a C pointer value is a `Nat` (the stub's dummy
handle `(void*)0x1` is `1`, the null pointer is `0`); a nullable C string
(`const char*`) is an `Option String` (`none` = `nullptr`); a callback
function pointer is represented by whether it is null (`callbackSupplied :
Bool`), and each stub operation returns the list of argument tuples the
callback is invoked with, in order, so that "invoked exactly once with
these arguments" is the statement that this list is a fixed singleton.
-/

/-- Arguments of one invocation of a save/delete completion callback
`void (*)(bool, const char*)`: the success flag and the nullable error
message. -/
structure SaveCbArgs where
  success : Bool
  errorMsg : Option String
deriving Repr, DecidableEq

/-- Arguments of one invocation of a fetch completion callback
`void (*)(const char*, const char*)`: the nullable JSON payload and the
nullable error message. -/
structure FetchCbArgs where
  json : Option String
  errorMsg : Option String
deriving Repr, DecidableEq

/-- The fixed message every stub save/delete operation reports
(`cloudkit_stub.cpp`). -/
def stubErrorMessage : String :=
  "CloudKit not initialized - requires Apple Developer setup"

/-- `cloudkit_init` (`cloudkit_stub.cpp`): returns the dummy pointer
`(void*)0x1` for every container identifier; it has no failure path. -/
def cloudkit_init (_containerIdentifier : String) : Nat := 1

/-- `cloudkit_save_settings`: if the callback pointer is non-null, invoke it
once with `(false, stubErrorMessage)`; `manager` and `jsonSettings` are
unused. The result is the list of callback invocations. -/
def cloudkit_save_settings (_manager : Nat) (_jsonSettings : Option String)
    (callbackSupplied : Bool) : List SaveCbArgs :=
  if callbackSupplied then [⟨false, some stubErrorMessage⟩] else []

/-- `cloudkit_fetch_settings`: if the callback pointer is non-null, invoke
it once with `(nullptr, nullptr)`. -/
def cloudkit_fetch_settings (_manager : Nat)
    (callbackSupplied : Bool) : List FetchCbArgs :=
  if callbackSupplied then [⟨none, none⟩] else []

/-- `cloudkit_save_history_item`: callback once with
`(false, stubErrorMessage)` when non-null. -/
def cloudkit_save_history_item (_manager : Nat) (_jsonItem : Option String)
    (callbackSupplied : Bool) : List SaveCbArgs :=
  if callbackSupplied then [⟨false, some stubErrorMessage⟩] else []

/-- `cloudkit_fetch_all_history`: callback once with `("[]", nullptr)` when
non-null. -/
def cloudkit_fetch_all_history (_manager : Nat)
    (callbackSupplied : Bool) : List FetchCbArgs :=
  if callbackSupplied then [⟨some "[]", none⟩] else []

/-- `cloudkit_delete_history_item`: callback once with
`(false, stubErrorMessage)` when non-null; `itemId` is unused. -/
def cloudkit_delete_history_item (_manager : Nat) (_itemId : Option String)
    (callbackSupplied : Bool) : List SaveCbArgs :=
  if callbackSupplied then [⟨false, some stubErrorMessage⟩] else []

/-- `cloudkit_save_note`: callback once with `(false, stubErrorMessage)`
when non-null. -/
def cloudkit_save_note (_manager : Nat) (_jsonNote : Option String)
    (callbackSupplied : Bool) : List SaveCbArgs :=
  if callbackSupplied then [⟨false, some stubErrorMessage⟩] else []

/-- `cloudkit_fetch_all_notes`: callback once with `("[]", nullptr)` when
non-null. -/
def cloudkit_fetch_all_notes (_manager : Nat)
    (callbackSupplied : Bool) : List FetchCbArgs :=
  if callbackSupplied then [⟨some "[]", none⟩] else []

/-- `cloudkit_delete_note`: callback once with `(false, stubErrorMessage)`
when non-null; `itemId` is unused. -/
def cloudkit_delete_note (_manager : Nat) (_itemId : Option String)
    (callbackSupplied : Bool) : List SaveCbArgs :=
  if callbackSupplied then [⟨false, some stubErrorMessage⟩] else []

/-- The names of the functions exported by `cloudkit_bridge.h` (its
`extern "C"` block, lines 8–16), in declaration order. -/
def bridgeExports : List String :=
  ["cloudkit_init", "cloudkit_save_settings", "cloudkit_fetch_settings",
   "cloudkit_save_history_item", "cloudkit_fetch_all_history",
   "cloudkit_delete_history_item", "cloudkit_save_note",
   "cloudkit_fetch_all_notes", "cloudkit_delete_note"]

/-- The instance methods `CloudKitAddon::Init` registers on the
`CloudKitManager` JavaScript class (`node_addon.cpp`, `DefineClass`). -/
def cloudKitManagerMethods : List String :=
  ["saveSettings", "fetchSettings", "saveHistoryItem", "fetchAllHistory",
   "deleteHistoryItem", "saveNote", "fetchAllNotes", "deleteNote"]

/-! ## The JavaScript value model and the N-API addon (`node_addon.cpp`) -/

/-- A JavaScript value as seen through N-API: `null`, a boolean, a string,
a plain object (an ordered field list), or an array. `IsObject` holds of
both `obj` and `array` (a JS array is an object); `IsString` holds of
`str` only. -/
inductive JsValue where
  | null
  | bool (b : Bool)
  | str (s : String)
  | obj (fields : List (String × JsValue))
  | array (elems : List JsValue)

/-- `Napi::Value::IsString`. -/
def JsValue.IsString : JsValue → Bool
  | .str _ => true
  | _ => false

/-- `Napi::Value::IsObject`: true of plain objects and of arrays. -/
def JsValue.IsObject : JsValue → Bool
  | .obj _ => true
  | .array _ => true
  | _ => false

/-- `env.Null()` discriminator. -/
def JsValue.isNull : JsValue → Bool
  | .null => true
  | _ => false

mutual

/-- Model of `Napi::JSON::Stringify` (an external V8 facility used by the
addon), restricted to the modelled value grammar; string escaping is not
modelled. -/
def jsonStringify : JsValue → String
  | .null => "null"
  | .bool true => "true"
  | .bool false => "false"
  | .str s => "\"" ++ s ++ "\""
  | .obj fields => "\x7b" ++ jsonStringifyFields fields ++ "\x7d"
  | .array elems => "[" ++ jsonStringifyElems elems ++ "]"

/-- Comma-separated `"key":value` serialization of an object's fields. -/
def jsonStringifyFields : List (String × JsValue) → String
  | [] => ""
  | [(k, v)] => "\"" ++ k ++ "\":" ++ jsonStringify v
  | (k, v) :: rest =>
      "\"" ++ k ++ "\":" ++ jsonStringify v ++ "," ++ jsonStringifyFields rest

/-- Comma-separated serialization of an array's elements. -/
def jsonStringifyElems : List JsValue → String
  | [] => ""
  | [v] => jsonStringify v
  | v :: rest => jsonStringify v ++ "," ++ jsonStringifyElems rest

end

/-- One call the addon makes into the C bridge, with the arguments it
passes (the manager pointer and, for save/delete, the serialized payload
or identifier). -/
inductive ProviderCall where
  | saveSettings (manager : Nat) (jsonSettings : String)
  | fetchSettings (manager : Nat)
  | saveHistoryItem (manager : Nat) (jsonItem : String)
  | fetchAllHistory (manager : Nat)
  | deleteHistoryItem (manager : Nat) (itemId : String)
  | saveNote (manager : Nat) (jsonNote : String)
  | fetchAllNotes (manager : Nat)
  | deleteNote (manager : Nat) (itemId : String)
deriving Repr, DecidableEq

/-- What a completed (non-throwing) addon method did: the bridge calls it
made, in order, and the value its promise was resolved with. -/
structure AddonOutcome where
  providerCalls : List ProviderCall
  resolved : JsValue

/-- Result of invoking an addon method: either a `Napi::TypeError` thrown
synchronously (before any bridge call), or a completed run. -/
inductive AddonResult where
  | thrown (msg : String)
  | completed (outcome : AddonOutcome)

/-- Whether the method threw synchronously. -/
def AddonResult.threw : AddonResult → Bool
  | .thrown _ => true
  | .completed _ => false

/-- The bridge calls recorded by the method (none when it threw). -/
def AddonResult.recordedCalls : AddonResult → List ProviderCall
  | .thrown _ => []
  | .completed o => o.providerCalls

/-- The `CloudKitAddon` object: its single data member, the
`cloudKitManager` pointer obtained from `cloudkit_init`. -/
structure CloudKitAddon where
  cloudKitManager : Nat
deriving Repr, DecidableEq

/-- The `CloudKitAddon` constructor: throws `TypeError` unless the first
argument is a string; otherwise stores `cloudkit_init(containerIdentifier)`.
There is no other failure path. -/
def CloudKitAddon.construct (args : List JsValue) : Except String CloudKitAddon :=
  match args with
  | (.str containerIdentifier) :: _ => .ok ⟨cloudkit_init containerIdentifier⟩
  | _ => .error "Container identifier required"

/-- `CloudKitAddon::SaveSettings`: requires an object argument, stringifies
it, calls `cloudkit_save_settings` with a no-op lambda, and resolves the
promise with `true`. -/
def CloudKitAddon.SaveSettings (a : CloudKitAddon) (args : List JsValue) : AddonResult :=
  match args with
  | v :: _ =>
      if v.IsObject then
        .completed ⟨[.saveSettings a.cloudKitManager (jsonStringify v)], .bool true⟩
      else .thrown "Settings object required"
  | [] => .thrown "Settings object required"

/-- `CloudKitAddon::FetchSettings`: no validation; calls
`cloudkit_fetch_settings` with a no-op lambda and resolves the promise
with `env.Null()`. -/
def CloudKitAddon.FetchSettings (a : CloudKitAddon) (_args : List JsValue) : AddonResult :=
  .completed ⟨[.fetchSettings a.cloudKitManager], .null⟩

/-- `CloudKitAddon::SaveHistoryItem`: requires an object argument,
stringifies it, calls `cloudkit_save_history_item`, resolves with `true`. -/
def CloudKitAddon.SaveHistoryItem (a : CloudKitAddon) (args : List JsValue) : AddonResult :=
  match args with
  | v :: _ =>
      if v.IsObject then
        .completed ⟨[.saveHistoryItem a.cloudKitManager (jsonStringify v)], .bool true⟩
      else .thrown "History item object required"
  | [] => .thrown "History item object required"

/-- `CloudKitAddon::FetchAllHistory`: no validation; calls
`cloudkit_fetch_all_history` and resolves with a new empty array. -/
def CloudKitAddon.FetchAllHistory (a : CloudKitAddon) (_args : List JsValue) : AddonResult :=
  .completed ⟨[.fetchAllHistory a.cloudKitManager], .array []⟩

/-- `CloudKitAddon::DeleteHistoryItem`: requires a string argument (any
string, the empty string included), calls `cloudkit_delete_history_item`
with it, resolves with `true`. -/
def CloudKitAddon.DeleteHistoryItem (a : CloudKitAddon) (args : List JsValue) : AddonResult :=
  match args with
  | (.str itemId) :: _ =>
      .completed ⟨[.deleteHistoryItem a.cloudKitManager itemId], .bool true⟩
  | _ => .thrown "Item ID required"

/-- `CloudKitAddon::SaveNote`: requires an object argument, stringifies it,
calls `cloudkit_save_note`, resolves with `true`. -/
def CloudKitAddon.SaveNote (a : CloudKitAddon) (args : List JsValue) : AddonResult :=
  match args with
  | v :: _ =>
      if v.IsObject then
        .completed ⟨[.saveNote a.cloudKitManager (jsonStringify v)], .bool true⟩
      else .thrown "Note object required"
  | [] => .thrown "Note object required"

/-- `CloudKitAddon::FetchAllNotes`: no validation; calls
`cloudkit_fetch_all_notes` and resolves with a new empty array. -/
def CloudKitAddon.FetchAllNotes (a : CloudKitAddon) (_args : List JsValue) : AddonResult :=
  .completed ⟨[.fetchAllNotes a.cloudKitManager], .array []⟩

/-- `CloudKitAddon::DeleteNote`: requires a string argument, calls
`cloudkit_delete_note` with it, resolves with `true`. -/
def CloudKitAddon.DeleteNote (a : CloudKitAddon) (args : List JsValue) : AddonResult :=
  match args with
  | (.str itemId) :: _ =>
      .completed ⟨[.deleteNote a.cloudKitManager itemId], .bool true⟩
  | _ => .thrown "Item ID required"

/-! ## Execution traces of the addon methods

Each addon method, run against a provider, performs in order: one bridge
call, then (inside that call, synchronously for the stub; on an arbitrary
thread for a real provider) some number of invocations of the no-op
completion lambda, then one `promise.Resolve(...)`. The trace records these
events. The number of completion-lambda invocations is a parameter, so the
spec's 0-, 1- and 2-callback provider injections are all instances; the
stub provider invokes the lambda exactly once. -/

/-- One observable event in an addon method's execution. -/
inductive AddonAction where
  | providerCall (c : ProviderCall)
  | lambdaInvoked
  | resolve (v : JsValue)

/-- How many times the trace resolves the method's promise. -/
def countResolves (t : List AddonAction) : Nat :=
  t.countP fun a => match a with
    | .resolve _ => true
    | _ => false

/-- The common shape of every addon method body (`node_addon.cpp`): the
bridge call, the lambda invocations the provider performs, then the single
unconditional `promise.Resolve`. -/
def addonMethodTrace (c : ProviderCall) (lambdaInvocations : Nat)
    (resolvedValue : JsValue) : List AddonAction :=
  AddonAction.providerCall c
    :: List.replicate lambdaInvocations AddonAction.lambdaInvoked
    ++ [AddonAction.resolve resolvedValue]

/-- Trace of `CloudKitAddon::SaveSettings` after validation, for a provider
invoking the completion lambda `n` times. -/
def saveSettingsTrace (manager : Nat) (jsonSettings : String) (n : Nat) :
    List AddonAction :=
  addonMethodTrace (.saveSettings manager jsonSettings) n (.bool true)

/-- Trace of `CloudKitAddon::FetchSettings`. -/
def fetchSettingsTrace (manager : Nat) (n : Nat) : List AddonAction :=
  addonMethodTrace (.fetchSettings manager) n .null

/-- Trace of `CloudKitAddon::SaveHistoryItem` after validation. -/
def saveHistoryItemTrace (manager : Nat) (jsonItem : String) (n : Nat) :
    List AddonAction :=
  addonMethodTrace (.saveHistoryItem manager jsonItem) n (.bool true)

/-- Trace of `CloudKitAddon::FetchAllHistory`. -/
def fetchAllHistoryTrace (manager : Nat) (n : Nat) : List AddonAction :=
  addonMethodTrace (.fetchAllHistory manager) n (.array [])

/-- Trace of `CloudKitAddon::DeleteHistoryItem` after validation. -/
def deleteHistoryItemTrace (manager : Nat) (itemId : String) (n : Nat) :
    List AddonAction :=
  addonMethodTrace (.deleteHistoryItem manager itemId) n (.bool true)

/-- Trace of `CloudKitAddon::SaveNote` after validation. -/
def saveNoteTrace (manager : Nat) (jsonNote : String) (n : Nat) :
    List AddonAction :=
  addonMethodTrace (.saveNote manager jsonNote) n (.bool true)

/-- Trace of `CloudKitAddon::FetchAllNotes`. -/
def fetchAllNotesTrace (manager : Nat) (n : Nat) : List AddonAction :=
  addonMethodTrace (.fetchAllNotes manager) n (.array [])

/-- Trace of `CloudKitAddon::DeleteNote` after validation. -/
def deleteNoteTrace (manager : Nat) (itemId : String) (n : Nat) :
    List AddonAction :=
  addonMethodTrace (.deleteNote manager itemId) n (.bool true)

/-- Helper: any trace of the common method shape resolves exactly once, no
matter how many times the provider invokes the no-op lambda. -/
lemma countResolves_addonMethodTrace (c : ProviderCall) (n : Nat) (v : JsValue) :
    countResolves (addonMethodTrace c n v) = 1 := by
  simp [addonMethodTrace, countResolves, List.countP_cons, List.countP_append,
    List.countP_replicate]

/-! ## Substring occurrence (used to state facts about exported names and
error messages) -/

/-- Whether `p` is a prefix of `s` (character lists, by `==`). -/
def listStartsWith : List Char → List Char → Bool
  | [], _ => true
  | _ :: _, [] => false
  | p :: ps, c :: cs => p == c && listStartsWith ps cs

/-- Whether `pat` occurs contiguously inside `s`. -/
def containsSub (pat : List Char) : List Char → Bool
  | [] => listStartsWith pat []
  | s@(_ :: rest) => listStartsWith pat s || containsSub pat rest

/-! ## The claims -/

/-- C1: in stub mode the C layer does report every Save/Delete as a failure
with the fixed explanatory message, but the caller-visible result
contradicts the claim: at the spec's concrete scenario
(`init("test-container")`, then `SaveNote` with `{"id":"1","text":"hi"}`)
`CloudKitAddon::SaveNote` discards the stub's failure callback and resolves
its promise with `true` — a success value, not `Err("provider unavailable")`
or any failure. This theorem evaluates the code at that failing input. -/
theorem saveNote_stub_scenario_resolves_success :
    CloudKitAddon.SaveNote ⟨cloudkit_init "test-container"⟩
        [.obj [("id", .str "1"), ("text", .str "hi")]]
      = .completed ⟨[.saveNote 1 "\x7b\"id\":\"1\",\"text\":\"hi\"\x7d"], .bool true⟩
    ∧ cloudkit_save_note 1 (some "\x7b\"id\":\"1\",\"text\":\"hi\"\x7d") true
      = [⟨false, some stubErrorMessage⟩] :=
  ⟨rfl, rfl⟩

/-- C2: every operation produces exactly one result at both boundaries.
Each of the eight C stub functions invokes a supplied (non-null) callback
exactly once per call, and each addon method's execution trace contains
exactly one promise resolution — for every number `n` of completion-lambda
invocations by the provider (so also for a provider that calls back 0 or 2
times), since the lambda is a no-op and `Resolve` runs once
unconditionally. -/
theorem dispatch_produces_exactly_one_result :
    (∀ m p, (cloudkit_save_settings m p true).length = 1) ∧
    (∀ m, (cloudkit_fetch_settings m true).length = 1) ∧
    (∀ m p, (cloudkit_save_history_item m p true).length = 1) ∧
    (∀ m, (cloudkit_fetch_all_history m true).length = 1) ∧
    (∀ m p, (cloudkit_delete_history_item m p true).length = 1) ∧
    (∀ m p, (cloudkit_save_note m p true).length = 1) ∧
    (∀ m, (cloudkit_fetch_all_notes m true).length = 1) ∧
    (∀ m p, (cloudkit_delete_note m p true).length = 1) ∧
    (∀ m j n, countResolves (saveSettingsTrace m j n) = 1) ∧
    (∀ m n, countResolves (fetchSettingsTrace m n) = 1) ∧
    (∀ m j n, countResolves (saveHistoryItemTrace m j n) = 1) ∧
    (∀ m n, countResolves (fetchAllHistoryTrace m n) = 1) ∧
    (∀ m i n, countResolves (deleteHistoryItemTrace m i n) = 1) ∧
    (∀ m j n, countResolves (saveNoteTrace m j n) = 1) ∧
    (∀ m n, countResolves (fetchAllNotesTrace m n) = 1) ∧
    (∀ m i n, countResolves (deleteNoteTrace m i n) = 1) := by
  repeat' apply And.intro
  all_goals intros
  all_goals first
    | rfl
    | exact countResolves_addonMethodTrace _ _ _

/-- C3: both fetch-all operations on the (always-empty) stub store resolve
to an empty sequence and never a null/absent value: the C stub invokes the
callback with the non-null string `"[]"` (payload `some "[]"`, not `none`),
and the addon resolves the promise with a new empty array, which is not the
null value. -/
theorem fetch_all_on_empty_store_resolves_empty_sequence :
    (∀ m, cloudkit_fetch_all_history m true = [⟨some "[]", none⟩]) ∧
    (∀ m, cloudkit_fetch_all_notes m true = [⟨some "[]", none⟩]) ∧
    (Option.isSome (some "[]") = true) ∧
    (∀ a args, CloudKitAddon.FetchAllHistory a args =
      .completed ⟨[.fetchAllHistory a.cloudKitManager], .array []⟩) ∧
    (∀ a args, CloudKitAddon.FetchAllNotes a args =
      .completed ⟨[.fetchAllNotes a.cloudKitManager], .array []⟩) ∧
    (JsValue.isNull (.array []) = false) := by
  repeat' apply And.intro
  all_goals intros
  all_goals rfl

/-- C4 counterexample: an empty identifier is not rejected. With the handle
from `init("test-container")`, `DeleteHistoryItem("")` does not throw, the
provider call IS recorded (one `cloudkit_delete_history_item` call with the
empty id), and the promise resolves with `true`; `DeleteNote("")` behaves
the same. So the operation neither fails synchronously with
`InvalidArgument` nor refrains from asynchronous work. -/
theorem delete_empty_identifier_not_rejected :
    CloudKitAddon.DeleteHistoryItem ⟨cloudkit_init "test-container"⟩ [.str ""]
      = .completed ⟨[.deleteHistoryItem 1 ""], .bool true⟩
    ∧ (CloudKitAddon.DeleteHistoryItem ⟨1⟩ [.str ""]).threw = false
    ∧ (CloudKitAddon.DeleteHistoryItem ⟨1⟩ [.str ""]).recordedCalls.length = 1
    ∧ CloudKitAddon.DeleteNote ⟨1⟩ [.str ""]
      = .completed ⟨[.deleteNote 1 ""], .bool true⟩ :=
  ⟨rfl, rfl, rfl, rfl⟩

/-- C4 amended: the delete methods validate only that the first argument is
a string. Every string identifier — the empty string included — is accepted:
the provider call is made with it and the promise resolves with `true`. Only
a missing (or non-string) argument fails synchronously, with a thrown
`TypeError` and no recorded provider call. -/
theorem delete_accepts_any_string_rejects_only_nonstring :
    (∀ m itemId, CloudKitAddon.DeleteHistoryItem ⟨m⟩ [.str itemId]
        = .completed ⟨[.deleteHistoryItem m itemId], .bool true⟩) ∧
    (∀ m, CloudKitAddon.DeleteHistoryItem ⟨m⟩ [] = .thrown "Item ID required") ∧
    (∀ m, (CloudKitAddon.DeleteHistoryItem ⟨m⟩ []).recordedCalls = []) ∧
    (∀ m itemId, CloudKitAddon.DeleteNote ⟨m⟩ [.str itemId]
        = .completed ⟨[.deleteNote m itemId], .bool true⟩) ∧
    (∀ m, CloudKitAddon.DeleteNote ⟨m⟩ [] = .thrown "Item ID required") ∧
    (∀ m, (CloudKitAddon.DeleteNote ⟨m⟩ []).recordedCalls = []) := by
  repeat' apply And.intro
  all_goals intros
  all_goals rfl

/-- C5 counterexample: an operation on an invalid handle does not yield an
`InvalidHandle` error. The null pointer `0` is never a live handle
(`cloudkit_init` always returns `1`), yet `cloudkit_save_settings` on it
produces exactly the same fixed stub failure as on the initialized handle,
and that failure's message does not mention `InvalidHandle` at all — the
code contains no handle-validity check or `InvalidHandle` channel. -/
theorem invalid_handle_gets_stub_result_not_invalid_handle_error :
    cloudkit_save_settings 0 none true
      = cloudkit_save_settings (cloudkit_init "test-container") none true
    ∧ cloudkit_save_settings 0 none true = [⟨false, some stubErrorMessage⟩]
    ∧ containsSub ("InvalidHandle".toList) (stubErrorMessage.toList) = false :=
  ⟨rfl, rfl, by decide⟩

/-- C5 amended: every operation ignores its handle argument entirely: any
handle value, valid, destroyed or never issued, synchronously receives the
identical fixed stub result — a single callback invocation, so the call
never hangs — and no `InvalidHandle` error is ever produced (the fixed
failure message does not mention it). -/
theorem operations_ignore_handle_never_yield_invalid_handle :
    (∀ h p, cloudkit_save_settings h p true = [⟨false, some stubErrorMessage⟩]) ∧
    (∀ h, cloudkit_fetch_settings h true = [⟨none, none⟩]) ∧
    (∀ h p, cloudkit_save_history_item h p true = [⟨false, some stubErrorMessage⟩]) ∧
    (∀ h, cloudkit_fetch_all_history h true = [⟨some "[]", none⟩]) ∧
    (∀ h p, cloudkit_delete_history_item h p true = [⟨false, some stubErrorMessage⟩]) ∧
    (∀ h p, cloudkit_save_note h p true = [⟨false, some stubErrorMessage⟩]) ∧
    (∀ h, cloudkit_fetch_all_notes h true = [⟨some "[]", none⟩]) ∧
    (∀ h p, cloudkit_delete_note h p true = [⟨false, some stubErrorMessage⟩]) ∧
    containsSub ("InvalidHandle".toList) (stubErrorMessage.toList) = false := by
  repeat' apply And.intro
  all_goals intros
  all_goals rfl

/-- C6 counterexample: `init` with the empty container identifier does not
fail: `cloudkit_init("")` returns the dummy handle `1` and the addon
constructor stores it and succeeds — even though the provider is entirely
absent (stub mode), no `InitializationError` is reported. -/
theorem init_empty_identifier_returns_handle :
    cloudkit_init "" = 1 ∧ CloudKitAddon.construct [.str ""] = .ok ⟨1⟩ :=
  ⟨rfl, rfl⟩

/-- C6 amended: `init` never fails and never crashes. `cloudkit_init`
returns the fixed dummy handle `1` (the code's `(void*)0x1`) for every
identifier string, empty or not, provider available or not; the only
synchronous failure in the construction path is the `TypeError` the addon
constructor throws when the identifier argument is missing or not a
string. -/
theorem init_never_fails :
    (∀ s, cloudkit_init s = 1) ∧
    (∀ s, CloudKitAddon.construct [.str s] = .ok ⟨1⟩) ∧
    CloudKitAddon.construct [] = .error "Container identifier required" ∧
    (∀ b, CloudKitAddon.construct [.bool b] = .error "Container identifier required") := by
  repeat' apply And.intro
  all_goals intros
  all_goals rfl

/-- C7 counterexample: the single-record fetch does NOT resolve as an empty
sequence. `cloudkit_fetch_settings` passes the null pointer (payload `none`,
`isSome = false`) to its callback, and `CloudKitAddon::FetchSettings`
resolves its promise with `env.Null()` — an absent value, not an empty
sequence. -/
theorem fetch_settings_resolves_null_not_empty_sequence :
    cloudkit_fetch_settings (cloudkit_init "test-container") true = [⟨none, none⟩]
    ∧ (FetchCbArgs.json ⟨none, none⟩).isSome = false
    ∧ CloudKitAddon.FetchSettings ⟨cloudkit_init "test-container"⟩ []
        = .completed ⟨[.fetchSettings 1], .null⟩
    ∧ JsValue.isNull .null = true :=
  ⟨rfl, rfl, rfl, rfl⟩

/-- C7 amended: in stub mode the two fetch-all operations resolve as empty
sequences (`"[]"` at the C boundary, an empty array at the addon), but
`fetchSettings` does not: its stub passes `nullptr` and the addon resolves
the promise with null — an absent value. -/
theorem fetch_settings_null_fetch_all_empty :
    (∀ m, cloudkit_fetch_settings m true = [⟨none, none⟩]) ∧
    (∀ a args, CloudKitAddon.FetchSettings a args =
        .completed ⟨[.fetchSettings a.cloudKitManager], .null⟩) ∧
    JsValue.isNull .null = true ∧
    (∀ m, cloudkit_fetch_all_history m true = [⟨some "[]", none⟩]) ∧
    (∀ m, cloudkit_fetch_all_notes m true = [⟨some "[]", none⟩]) ∧
    (∀ a args, CloudKitAddon.FetchAllHistory a args =
        .completed ⟨[.fetchAllHistory a.cloudKitManager], .array []⟩) ∧
    (∀ a args, CloudKitAddon.FetchAllNotes a args =
        .completed ⟨[.fetchAllNotes a.cloudKitManager], .array []⟩) ∧
    JsValue.isNull (.array []) = false := by
  repeat' apply And.intro
  all_goals intros
  all_goals rfl

/-- C8 counterexample: no shutdown operation exists at either boundary. No
name exported by `cloudkit_bridge.h` and no method registered on the
`CloudKitManager` class contains `shutdown` (nor `close`, `destroy`,
`release` or `dispose`) — the claimed `shutdown(handle)` entry point is
absent from the code. -/
theorem no_shutdown_operation_exported :
    (["shutdown", "close", "destroy", "release", "dispose"].all fun pat =>
      (bridgeExports ++ cloudKitManagerMethods).all fun n =>
        !(containsSub pat.toList n.toList)) = true := by
  decide

/-- C8 amended: the bridge exposes no shutdown/release operation at all.
Its C surface is exactly `cloudkit_init` plus the eight operation entry
points (nine exports), the JavaScript class exposes exactly the eight
operation methods, and none of these names is a shutdown-like operation —
so handles are never released and there is no operation whose idempotence
could be stated. -/
theorem bridge_export_surface_has_no_shutdown :
    bridgeExports.length = 9 ∧
    cloudKitManagerMethods.length = 8 ∧
    "cloudkit_init" ∈ bridgeExports ∧
    ((bridgeExports ++ cloudKitManagerMethods).all fun n =>
      !(containsSub ("shutdown".toList) n.toList)) = true := by
  refine ⟨rfl, rfl, by decide, by decide⟩

/-- C9: every stub operation is deterministic and its callback arguments
are independent of both the manager handle and the payload: any two
invocations of the same `cloudkit_*` operation, with arbitrary handles and
payloads and the same callback-nullness, invoke the callback with identical
argument lists — the fixed `(false, stubErrorMessage)` for save/delete, the
fixed `("[]", nullptr)` / `(nullptr, nullptr)` for the fetches. -/
theorem stub_operations_independent_of_handle_and_payload :
    (∀ m₁ p₁ m₂ p₂ cb, cloudkit_save_settings m₁ p₁ cb = cloudkit_save_settings m₂ p₂ cb) ∧
    (∀ m₁ m₂ cb, cloudkit_fetch_settings m₁ cb = cloudkit_fetch_settings m₂ cb) ∧
    (∀ m₁ p₁ m₂ p₂ cb, cloudkit_save_history_item m₁ p₁ cb = cloudkit_save_history_item m₂ p₂ cb) ∧
    (∀ m₁ m₂ cb, cloudkit_fetch_all_history m₁ cb = cloudkit_fetch_all_history m₂ cb) ∧
    (∀ m₁ p₁ m₂ p₂ cb, cloudkit_delete_history_item m₁ p₁ cb = cloudkit_delete_history_item m₂ p₂ cb) ∧
    (∀ m₁ p₁ m₂ p₂ cb, cloudkit_save_note m₁ p₁ cb = cloudkit_save_note m₂ p₂ cb) ∧
    (∀ m₁ m₂ cb, cloudkit_fetch_all_notes m₁ cb = cloudkit_fetch_all_notes m₂ cb) ∧
    (∀ m₁ p₁ m₂ p₂ cb, cloudkit_delete_note m₁ p₁ cb = cloudkit_delete_note m₂ p₂ cb) ∧
    (∀ m p, cloudkit_save_settings m p true = [⟨false, some stubErrorMessage⟩]) ∧
    (∀ m p, cloudkit_delete_history_item m p true = [⟨false, some stubErrorMessage⟩]) := by
  repeat' apply And.intro
  all_goals intros
  all_goals rfl

/-- C10: every stub operation guards its callback: when the callback
function pointer is null, the operation performs no invocation at all — the
invocation list is empty for every handle and payload, a safe no-op. -/
theorem null_callback_is_noop :
    (∀ m p, cloudkit_save_settings m p false = []) ∧
    (∀ m, cloudkit_fetch_settings m false = []) ∧
    (∀ m p, cloudkit_save_history_item m p false = []) ∧
    (∀ m, cloudkit_fetch_all_history m false = []) ∧
    (∀ m p, cloudkit_delete_history_item m p false = []) ∧
    (∀ m p, cloudkit_save_note m p false = []) ∧
    (∀ m, cloudkit_fetch_all_notes m false = []) ∧
    (∀ m p, cloudkit_delete_note m p false = []) := by
  repeat' apply And.intro
  all_goals intros
  all_goals rfl
